import Mathlib

/-!
Verification of the media playback control core (the `useVideoPlayer` hook)
and the slide viewer's `changeImage` navigation.

JavaScript numbers are modelled exactly, as rationals extended with the IEEE
special values `NaN`, `+Infinity` and `-Infinity` (no rounding and no signed
zero; none of the verified properties depends on either).  The operations
`+`, `*`, `/`, `Math.min` and `Math.max` follow the ECMAScript semantics on
these values: `NaN` is absorbing, division by zero of a nonzero numerator
yields a signed infinity, `0/0` yields `NaN`, and `Math.min`/`Math.max`
return `NaN` whenever an argument is `NaN`.

The hook's state updates are embedded as explicit state passing: each handler
is a function from the player (the optional attached media element, the
React state record, and the document's fullscreen flag) to the new player
together with the list of effects it issues to the outside world (commands to
the media element, fullscreen requests, and the optional time-update callback
invocation).  Reads of the media element's properties and writes to them
follow the source line by line.
-/

/-- JavaScript number: a rational or one of the IEEE special values. -/
inductive JSNum where
  | nan
  | posInf
  | negInf
  | num (q : ℚ)
deriving DecidableEq, Repr

/-- ECMAScript addition. -/
def JSNum.add : JSNum → JSNum → JSNum
  | nan, _ => nan
  | _, nan => nan
  | posInf, negInf => nan
  | negInf, posInf => nan
  | posInf, _ => posInf
  | _, posInf => posInf
  | negInf, _ => negInf
  | _, negInf => negInf
  | num a, num b => num (a + b)

/-- ECMAScript multiplication (an infinity times zero is `NaN`). -/
def JSNum.mul : JSNum → JSNum → JSNum
  | nan, _ => nan
  | _, nan => nan
  | posInf, posInf => posInf
  | posInf, negInf => negInf
  | negInf, posInf => negInf
  | negInf, negInf => posInf
  | posInf, num b => if 0 < b then posInf else if b < 0 then negInf else nan
  | negInf, num b => if 0 < b then negInf else if b < 0 then posInf else nan
  | num a, posInf => if 0 < a then posInf else if a < 0 then negInf else nan
  | num a, negInf => if 0 < a then negInf else if a < 0 then posInf else nan
  | num a, num b => num (a * b)

/-- ECMAScript division (`x/0` is a signed infinity for `x ≠ 0`, `0/0` is `NaN`). -/
def JSNum.div : JSNum → JSNum → JSNum
  | nan, _ => nan
  | _, nan => nan
  | posInf, posInf => nan
  | posInf, negInf => nan
  | negInf, posInf => nan
  | negInf, negInf => nan
  | posInf, num b => if b < 0 then negInf else posInf
  | negInf, num b => if b < 0 then posInf else negInf
  | num _, posInf => num 0
  | num _, negInf => num 0
  | num a, num b =>
      if b = 0 then (if 0 < a then posInf else if a < 0 then negInf else nan)
      else num (a / b)

/-- ECMAScript Math.max: `NaN` if either argument is `NaN`. -/
def JSNum.jsMax : JSNum → JSNum → JSNum
  | nan, _ => nan
  | _, nan => nan
  | posInf, _ => posInf
  | _, posInf => posInf
  | negInf, y => y
  | x, negInf => x
  | num a, num b => num (max a b)

/-- ECMAScript Math.min: `NaN` if either argument is `NaN`. -/
def JSNum.jsMin : JSNum → JSNum → JSNum
  | nan, _ => nan
  | _, nan => nan
  | negInf, _ => negInf
  | _, negInf => negInf
  | posInf, y => y
  | x, posInf => x
  | num a, num b => num (min a b)

instance : Add JSNum := ⟨JSNum.add⟩

instance : Mul JSNum := ⟨JSNum.mul⟩

instance : Div JSNum := ⟨JSNum.div⟩

/-- The attached HTMLVideoElement, restricted to the properties the hook
reads and writes: currentTime, duration, the buffered time ranges (kept as
the list of range end timestamps), volume, muted and playbackRate. -/
structure MediaEl where
  currentTime : JSNum
  duration : JSNum
  bufferedEnds : List JSNum
  volume : JSNum
  muted : Bool
  playbackRate : JSNum
deriving DecidableEq, Repr

/-- The React state record of `useVideoPlayer` (the `videoState` object). -/
structure VideoState where
  isPlaying : Bool
  volume : JSNum
  isMuted : Bool
  progress : JSNum
  isFullscreen : Bool
  playbackRate : JSNum
  currentTime : JSNum
  duration : JSNum
  buffered : JSNum
deriving DecidableEq, Repr

/-- The initial state passed to useState in the hook. -/
def initialVideoState : VideoState :=
  { isPlaying := false
    volume := JSNum.num 1
    isMuted := false
    progress := JSNum.num 0
    isFullscreen := false
    playbackRate := JSNum.num 1
    currentTime := JSNum.num 0
    duration := JSNum.num 0
    buffered := JSNum.num 0 }

/-- An effect issued by a handler: a command to the media element, a
fullscreen request on the document, or the onTimeUpdate callback call. -/
inductive Eff where
  | play
  | pause
  | setCurrentTime (t : JSNum)
  | setVolume (v : JSNum)
  | setMuted (m : Bool)
  | setPlaybackRate (r : JSNum)
  | requestFullscreen
  | exitFullscreen
  | notifyTimeUpdate (t : JSNum)
deriving DecidableEq, Repr

/-- The whole player: `el` is `videoRef.current` (`none` when no element is
attached), `st` is the React state, and `fullscreenElement` records whether
`document.fullscreenElement` is non-null. -/
structure Player where
  el : Option MediaEl
  st : VideoState
  fullscreenElement : Bool
deriving DecidableEq, Repr

/-- Source lines 32-42: toggle play/pause.  Issues pause when `isPlaying`,
else play, then flips `isPlaying` with a functional state update. -/
def togglePlayPause (p : Player) : Player × List Eff :=
  match p.el with
  | none => (p, [])
  | some _ =>
      ({ p with st := { p.st with isPlaying := !p.st.isPlaying } },
       [if p.st.isPlaying then Eff.pause else Eff.play])

/-- Source lines 45-58: volume change.  `newVolume` is the parsed slider
value; it is written to the element unconditionally, and `isMuted` becomes
the strict-equality test `newVolume === 0`. -/
def handleVolumeChange (newVolume : JSNum) (p : Player) : Player × List Eff :=
  match p.el with
  | none => (p, [])
  | some e =>
      ({ p with
          el := some { e with volume := newVolume }
          st := { p.st with
                    volume := newVolume
                    isMuted := decide (newVolume = JSNum.num 0) } },
       [Eff.setVolume newVolume])

/-- Source lines 61-67: toggle mute.  Flips the state's `isMuted`, writes it
to the element, and touches nothing else. -/
def toggleMute (p : Player) : Player × List Eff :=
  match p.el with
  | none => (p, [])
  | some e =>
      ({ p with
          el := some { e with muted := !p.st.isMuted }
          st := { p.st with isMuted := !p.st.isMuted } },
       [Eff.setMuted (!p.st.isMuted)])

/-- Source lines 74-76: `buffered.length ? buffered.end(buffered.length - 1) : 0`,
the end of the last buffered range, or 0 when there is none. -/
def bufferedEdge (e : MediaEl) : JSNum :=
  match e.bufferedEnds.getLast? with
  | some t => t
  | none => JSNum.num 0

/-- Source lines 70-89: the timeupdate handler.  Reads currentTime, duration
and the buffered edge from the element, recomputes the derived percentages
with no guard, and invokes the optional onTimeUpdate callback. -/
def handleTimeUpdate (hasCb : Bool) (p : Player) : Player × List Eff :=
  match p.el with
  | none => (p, [])
  | some e =>
      ({ p with
          st := { p.st with
                    currentTime := e.currentTime
                    duration := e.duration
                    progress := (e.currentTime / e.duration) * JSNum.num 100
                    buffered := (bufferedEdge e / e.duration) * JSNum.num 100 } },
       if hasCb then [Eff.notifyTimeUpdate e.currentTime] else [])

/-- Source lines 92-101: seek.  `value` is the parsed slider percentage; the
target time `(value / 100) * duration` is assigned unconditionally. -/
def handleSeek (value : JSNum) (p : Player) : Player × List Eff :=
  match p.el with
  | none => (p, [])
  | some e =>
      ({ p with el := some { e with currentTime := (value / JSNum.num 100) * e.duration } },
       [Eff.setCurrentTime ((value / JSNum.num 100) * e.duration)])

/-- Source lines 104-114: fullscreen toggle, keyed on `document.fullscreenElement`. -/
def toggleFullscreen (p : Player) : Player × List Eff :=
  match p.el with
  | none => (p, [])
  | some _ =>
      if !p.fullscreenElement then
        ({ p with st := { p.st with isFullscreen := true } }, [Eff.requestFullscreen])
      else
        ({ p with st := { p.st with isFullscreen := false } }, [Eff.exitFullscreen])

/-- Source lines 117-128: skip.  Assigns
`Math.min(Math.max(currentTime + time, 0), duration)` to the element. -/
def handleSkip (time : JSNum) (p : Player) : Player × List Eff :=
  match p.el with
  | none => (p, [])
  | some e =>
      ({ p with
          el := some { e with
            currentTime := JSNum.jsMin (JSNum.jsMax (e.currentTime + time) (JSNum.num 0)) e.duration } },
       [Eff.setCurrentTime (JSNum.jsMin (JSNum.jsMax (e.currentTime + time) (JSNum.num 0)) e.duration)])

/-- Source lines 131-139: playback rate change, applied and stored with no
validation. -/
def handlePlaybackRateChange (rate : JSNum) (p : Player) : Player × List Eff :=
  match p.el with
  | none => (p, [])
  | some e =>
      ({ p with
          el := some { e with playbackRate := rate }
          st := { p.st with playbackRate := rate } },
       [Eff.setPlaybackRate rate])

/-- Source lines 142-147: restart.  Assigns 0 to the element's currentTime
and resets the state's progress. -/
def restartVideo (p : Player) : Player × List Eff :=
  match p.el with
  | none => (p, [])
  | some e =>
      ({ p with
          el := some { e with currentTime := JSNum.num 0 }
          st := { p.st with progress := JSNum.num 0 } },
       [Eff.setCurrentTime (JSNum.num 0)])

/-- The ECMAScript remainder operator, which truncates toward zero. -/
def jsRem (a b : Int) : Int := a.tmod b

/-- SlideViewer.tsx lines 31-39: `(prevIndex + direction + images.length) % images.length`. -/
def changeImage (images : List String) (prevIndex : Int) (direction : Int) : Int :=
  jsRem (prevIndex + direction + (images.length : Int)) (images.length : Int)

/-- A media element before metadata has loaded: duration NaN, nothing buffered. -/
def elNoMeta : MediaEl :=
  { currentTime := JSNum.num 0
    duration := JSNum.nan
    bufferedEnds := []
    volume := JSNum.num 1
    muted := false
    playbackRate := JSNum.num 1 }

/-- A media element reporting a zero duration. -/
def elZeroDur : MediaEl := { elNoMeta with duration := JSNum.num 0 }

/-- A player attached to the no-metadata element, in the initial state. -/
def playerNoMeta : Player :=
  { el := some elNoMeta, st := initialVideoState, fullscreenElement := false }

/-- A player attached to the zero-duration element, in the initial state. -/
def playerZeroDur : Player :=
  { el := some elZeroDur, st := initialVideoState, fullscreenElement := false }

/-- A player with no media element attached. -/
def playerDetached : Player :=
  { el := none, st := initialVideoState, fullscreenElement := false }

/-- C1: the claim says a time update with duration NaN or 0 recomputes
progress and buffered as 0, never NaN.  The code has no such guard: on the
no-metadata element (duration NaN, currentTime 0) and on the zero-duration
element, both recomputed percentages are NaN. -/
theorem handleTimeUpdate_nan_duration_gives_nan :
    ((handleTimeUpdate false playerNoMeta).1.st.progress = JSNum.nan ∧
      (handleTimeUpdate false playerNoMeta).1.st.buffered = JSNum.nan) ∧
    ((handleTimeUpdate false playerZeroDur).1.st.progress = JSNum.nan ∧
      (handleTimeUpdate false playerZeroDur).1.st.buffered = JSNum.nan) := by
  refine ⟨⟨rfl, rfl⟩, ?_, ?_⟩ <;>
    simp [handleTimeUpdate, playerZeroDur, elZeroDur, elNoMeta, bufferedEdge,
      HDiv.hDiv, Div.div, JSNum.div, HMul.hMul, Mul.mul, JSNum.mul]

/-- C2: on an attached player, two immediate togglePlayPause calls issue two
commands and leave isPlaying true exactly when the last command issued was
play, false exactly when it was pause. -/
theorem togglePlayPause_twice_matches_last_command (p : Player) (e : MediaEl)
    (h : p.el = some e) :
    ((togglePlayPause p).2 ++ (togglePlayPause (togglePlayPause p).1).2).getLast?
      = some (if (togglePlayPause (togglePlayPause p).1).1.st.isPlaying
                then Eff.play else Eff.pause) := by
  obtain ⟨el, st, fs⟩ := p
  obtain ⟨ip, v, m, pr, fs2, rate, ct, dur, bf⟩ := st
  cases h
  cases ip <;> rfl

/-- C2 witness: the double toggle property evaluated on the concrete
no-metadata player. -/
theorem togglePlayPause_twice_matches_last_command_witness :
    playerNoMeta.el = some elNoMeta ∧
    ((togglePlayPause playerNoMeta).2
        ++ (togglePlayPause (togglePlayPause playerNoMeta).1).2).getLast?
      = some (if (togglePlayPause (togglePlayPause playerNoMeta).1).1.st.isPlaying
                then Eff.play else Eff.pause) :=
  ⟨rfl, togglePlayPause_twice_matches_last_command playerNoMeta elNoMeta rfl⟩

/-- C3: the claim says seek is a no-op while duration is NaN.  The code has
no such guard: seeking to 50 percent on the no-metadata player issues a seek
command whose target is NaN and writes NaN into the element. -/
theorem handleSeek_nan_duration_issues_nan_seek :
    (handleSeek (JSNum.num 50) playerNoMeta).2 = [Eff.setCurrentTime JSNum.nan] ∧
    (handleSeek (JSNum.num 50) playerNoMeta).1.el
      = some { elNoMeta with currentTime := JSNum.nan } := by
  constructor <;>
    simp [handleSeek, playerNoMeta, elNoMeta,
      HDiv.hDiv, Div.div, JSNum.div, HMul.hMul, Mul.mul, JSNum.mul]

/-- C4: the claim says skip with unknown duration clamps only the lower
bound and never yields NaN.  The code computes
Math.min(Math.max(currentTime + delta, 0), duration) unconditionally: on the
no-metadata player (currentTime 0, duration NaN), skip by 10 issues a seek
whose target is NaN, not 10. -/
theorem handleSkip_nan_duration_issues_nan_seek :
    (handleSkip (JSNum.num 10) playerNoMeta).2 = [Eff.setCurrentTime JSNum.nan] ∧
    (handleSkip (JSNum.num 10) playerNoMeta).1.el
      = some { elNoMeta with currentTime := JSNum.nan } :=
  ⟨rfl, rfl⟩

/-- C5 counterexample: the claim says setVolume never propagates a value
outside [0,1] to the resource.  With parsed input 2 on an attached player
the handler issues setVolume 2 and writes 2 into the element, and 2 is
outside [0,1]. -/
theorem handleVolumeChange_propagates_out_of_range :
    (handleVolumeChange (JSNum.num 2) playerNoMeta).2 = [Eff.setVolume (JSNum.num 2)] ∧
    (handleVolumeChange (JSNum.num 2) playerNoMeta).1.el
      = some { elNoMeta with volume := JSNum.num 2 } ∧
    (1 : ℚ) < 2 :=
  ⟨rfl, rfl, by norm_num⟩

/-- C5 amended: handleVolumeChange applies any parsed value v to the
resource unchanged (no clamping or rejection), stores it in the state, and
sets isMuted to the strict-equality test v === 0; so volume 0 yields isMuted
true and volume 0.5 after a prior mute yields isMuted false. -/
theorem handleVolumeChange_sets_volume_and_mute (v : JSNum) (p : Player) (e : MediaEl)
    (h : p.el = some e) :
    handleVolumeChange v p
      = ({ p with
            el := some { e with volume := v }
            st := { p.st with volume := v, isMuted := decide (v = JSNum.num 0) } },
         [Eff.setVolume v]) := by
  obtain ⟨el, st, fs⟩ := p
  cases h
  rfl

/-- C5 witness: the volume-change characterisation evaluated at input 0 on
the concrete no-metadata player. -/
theorem handleVolumeChange_sets_volume_and_mute_witness :
    playerNoMeta.el = some elNoMeta ∧
    handleVolumeChange (JSNum.num 0) playerNoMeta
      = ({ playerNoMeta with
            el := some { elNoMeta with volume := JSNum.num 0 }
            st := { playerNoMeta.st with
                      volume := JSNum.num 0
                      isMuted := decide (JSNum.num 0 = JSNum.num 0) } },
         [Eff.setVolume (JSNum.num 0)]) :=
  ⟨rfl, handleVolumeChange_sets_volume_and_mute (JSNum.num 0) playerNoMeta elNoMeta rfl⟩

/-- C6 counterexample: the claim says non-positive rates are rejected with
no resource mutation and no state change.  With rate -1 on an attached
player the handler issues setPlaybackRate (-1) and stores -1 in the state,
and -1 is not positive. -/
theorem handlePlaybackRateChange_applies_nonpositive :
    (handlePlaybackRateChange (JSNum.num (-1)) playerNoMeta).2
      = [Eff.setPlaybackRate (JSNum.num (-1))] ∧
    (handlePlaybackRateChange (JSNum.num (-1)) playerNoMeta).1.st.playbackRate
      = JSNum.num (-1) ∧
    (-1 : ℚ) < 0 :=
  ⟨rfl, rfl, by norm_num⟩

/-- C6 amended: handlePlaybackRateChange applies any rate, including
non-positive and non-finite ones, directly to the resource and stores it in
the state; there is no validation. -/
theorem handlePlaybackRateChange_applies_any_rate (rate : JSNum) (p : Player) (e : MediaEl)
    (h : p.el = some e) :
    handlePlaybackRateChange rate p
      = ({ p with
            el := some { e with playbackRate := rate }
            st := { p.st with playbackRate := rate } },
         [Eff.setPlaybackRate rate]) := by
  obtain ⟨el, st, fs⟩ := p
  cases h
  rfl

/-- C6 witness: the rate-change characterisation evaluated at the non-finite
rate NaN on the concrete no-metadata player. -/
theorem handlePlaybackRateChange_applies_any_rate_witness :
    playerNoMeta.el = some elNoMeta ∧
    handlePlaybackRateChange JSNum.nan playerNoMeta
      = ({ playerNoMeta with
            el := some { elNoMeta with playbackRate := JSNum.nan }
            st := { playerNoMeta.st with playbackRate := JSNum.nan } },
         [Eff.setPlaybackRate JSNum.nan]) :=
  ⟨rfl, handlePlaybackRateChange_applies_any_rate JSNum.nan playerNoMeta elNoMeta rfl⟩

/-- C7: on an attached player toggleMute flips isMuted and leaves volume
unchanged, and applying it twice restores the whole state record. -/
theorem toggleMute_twice_restores_state (p : Player) (e : MediaEl)
    (h : p.el = some e) :
    (toggleMute p).1.st.isMuted = !p.st.isMuted ∧
    (toggleMute p).1.st.volume = p.st.volume ∧
    (toggleMute (toggleMute p).1).1.st = p.st := by
  obtain ⟨el, st, fs⟩ := p
  cases h
  obtain ⟨ip, v, m, pr, fs2, rate, ct, dur, bf⟩ := st
  cases m <;> exact ⟨rfl, rfl, rfl⟩

/-- C7 witness: the mute involution evaluated on the concrete no-metadata
player. -/
theorem toggleMute_twice_restores_state_witness :
    playerNoMeta.el = some elNoMeta ∧
    ((toggleMute playerNoMeta).1.st.isMuted = !playerNoMeta.st.isMuted ∧
      (toggleMute playerNoMeta).1.st.volume = playerNoMeta.st.volume ∧
      (toggleMute (toggleMute playerNoMeta).1).1.st = playerNoMeta.st) :=
  ⟨rfl, toggleMute_twice_restores_state playerNoMeta elNoMeta rfl⟩

/-- C8: on an attached player restartVideo writes 0 to the element's
currentTime (issuing the seek command), resets the state's progress to 0,
and leaves isPlaying unchanged. -/
theorem restartVideo_resets_time_and_progress (p : Player) (e : MediaEl)
    (h : p.el = some e) :
    (restartVideo p).1.el = some { e with currentTime := JSNum.num 0 } ∧
    (restartVideo p).2 = [Eff.setCurrentTime (JSNum.num 0)] ∧
    (restartVideo p).1.st.progress = JSNum.num 0 ∧
    (restartVideo p).1.st.isPlaying = p.st.isPlaying := by
  obtain ⟨el, st, fs⟩ := p
  cases h
  exact ⟨rfl, rfl, rfl, rfl⟩

/-- C8 witness: restart evaluated on a playing player, showing isPlaying is
preserved. -/
theorem restartVideo_resets_time_and_progress_witness :
    (Player.mk (some elNoMeta) { initialVideoState with isPlaying := true } false).el
      = some elNoMeta ∧
    ((restartVideo (Player.mk (some elNoMeta) { initialVideoState with isPlaying := true } false)).1.el
        = some { elNoMeta with currentTime := JSNum.num 0 } ∧
      (restartVideo (Player.mk (some elNoMeta) { initialVideoState with isPlaying := true } false)).2
        = [Eff.setCurrentTime (JSNum.num 0)] ∧
      (restartVideo (Player.mk (some elNoMeta) { initialVideoState with isPlaying := true } false)).1.st.progress
        = JSNum.num 0 ∧
      (restartVideo (Player.mk (some elNoMeta) { initialVideoState with isPlaying := true } false)).1.st.isPlaying
        = (Player.mk (some elNoMeta) { initialVideoState with isPlaying := true } false).st.isPlaying) :=
  ⟨rfl, restartVideo_resets_time_and_progress
          (Player.mk (some elNoMeta) { initialVideoState with isPlaying := true } false)
          elNoMeta rfl⟩

/-- C9: with no element attached, every operation of the hook returns the
player unchanged and issues no effect at all. -/
theorem unattached_operations_are_noops (p : Player) (h : p.el = none)
    (v rate t pct : JSNum) (hasCb : Bool) :
    togglePlayPause p = (p, []) ∧
    handleVolumeChange v p = (p, []) ∧
    toggleMute p = (p, []) ∧
    handleTimeUpdate hasCb p = (p, []) ∧
    handleSeek pct p = (p, []) ∧
    toggleFullscreen p = (p, []) ∧
    handleSkip t p = (p, []) ∧
    handlePlaybackRateChange rate p = (p, []) ∧
    restartVideo p = (p, []) := by
  obtain ⟨el, st, fs⟩ := p
  cases h
  exact ⟨rfl, rfl, rfl, rfl, rfl, rfl, rfl, rfl, rfl⟩

/-- C9 witness: all nine operations evaluated on the concrete detached
player with concrete arguments. -/
theorem unattached_operations_are_noops_witness :
    playerDetached.el = none ∧
    (togglePlayPause playerDetached = (playerDetached, []) ∧
      handleVolumeChange (JSNum.num 2) playerDetached = (playerDetached, []) ∧
      toggleMute playerDetached = (playerDetached, []) ∧
      handleTimeUpdate true playerDetached = (playerDetached, []) ∧
      handleSeek (JSNum.num 50) playerDetached = (playerDetached, []) ∧
      toggleFullscreen playerDetached = (playerDetached, []) ∧
      handleSkip (JSNum.num 10) playerDetached = (playerDetached, []) ∧
      handlePlaybackRateChange (JSNum.num 2) playerDetached = (playerDetached, []) ∧
      restartVideo playerDetached = (playerDetached, [])) :=
  ⟨rfl, unattached_operations_are_noops playerDetached rfl
          (JSNum.num 2) (JSNum.num 2) (JSNum.num 10) (JSNum.num 50) true⟩

/-- C10: for a non-empty image list, an index in bounds and direction 1 or
-1, changeImage lands in bounds again, wraps the last index to 0 on
direction 1, and wraps index 0 to the last index on direction -1. -/
theorem changeImage_wraps (images : List String) (i d : Int)
    (hne : images ≠ []) (h0 : 0 ≤ i) (hi : i < (images.length : Int))
    (hd : d = 1 ∨ d = -1) :
    (0 ≤ changeImage images i d ∧ changeImage images i d < (images.length : Int)) ∧
    (i = (images.length : Int) - 1 → d = 1 → changeImage images i d = 0) ∧
    (i = 0 → d = -1 → changeImage images i d = (images.length : Int) - 1) := by
  have hL : 0 < (images.length : Int) := by
    have hlen := List.length_pos.mpr hne
    exact_mod_cast hlen
  have ha : 0 ≤ i + d + (images.length : Int) := by
    rcases hd with h1 | h1 <;> omega
  have hrem : changeImage images i d
      = (i + d + (images.length : Int)) % (images.length : Int) := by
    unfold changeImage jsRem
    exact Int.tmod_eq_emod ha (le_of_lt hL)
  refine ⟨⟨?_, ?_⟩, ?_, ?_⟩
  · rw [hrem]
    exact Int.emod_nonneg _ (by omega)
  · rw [hrem]
    exact Int.emod_lt_of_pos _ hL
  · intro hi1 hd1
    rw [hrem, hi1, hd1]
    have h2 : (images.length : Int) - 1 + 1 + (images.length : Int)
        = 2 * (images.length : Int) := by ring
    rw [h2]
    exact Int.mul_emod_left 2 _
  · intro hi0 hdm
    rw [hrem, hi0, hdm]
    have h2 : (0 : Int) + -1 + (images.length : Int) = (images.length : Int) - 1 := by
      ring
    rw [h2]
    exact Int.emod_eq_of_lt (by omega) (by omega)

/-- C10 witness: wrapping evaluated on a concrete three-image list at the
last index with direction 1. -/
theorem changeImage_wraps_witness :
    ((["a", "b", "c"] : List String) ≠ [] ∧ (0 : Int) ≤ 2 ∧
      (2 : Int) < ((["a", "b", "c"] : List String).length : Int)) ∧
    ((0 ≤ changeImage ["a", "b", "c"] 2 1 ∧
        changeImage ["a", "b", "c"] 2 1 < ((["a", "b", "c"] : List String).length : Int)) ∧
      ((2 : Int) = ((["a", "b", "c"] : List String).length : Int) - 1 → (1 : Int) = 1 →
        changeImage ["a", "b", "c"] 2 1 = 0) ∧
      ((2 : Int) = 0 → (1 : Int) = -1 →
        changeImage ["a", "b", "c"] 2 1 = ((["a", "b", "c"] : List String).length : Int) - 1)) :=
  ⟨⟨by decide, by decide, by decide⟩,
    changeImage_wraps ["a", "b", "c"] 2 1 (by decide) (by decide) (by decide) (Or.inl rfl)⟩
